import Mathlib

/-!
Verification of the xarebot orchestration layer (src/xarebot.py) against its
natural-language specification.  Each Python component is shallowly embedded
as a Lean definition; theorems about these definitions settle the spec claims.
-/

namespace Xarebot

/-! ## Session Store Adapter (`StorageImpl`, src/xarebot.py lines 59-89)

The Python class keeps all session state in one in-memory dict
`self.__data : Dict[str, JSONType]`, mirrored to a JSON file on every
mutation.  A Python dict is semantically a partial map from string keys to
values, so we embed the dict as `String → Option V` with the value type `V`
left abstract (the values are opaque JSON blobs owned by the encryption
collaborator).  The constructor tries to read the persisted table and, on
any failure (in particular a missing file), silently starts empty; we model
the outcome of that read as an `Option` table. -/

structure StorageImpl (V : Type) where
  data : String → Option V

namespace StorageImpl

/-- `StorageImpl.__init__`: load the persisted table if one exists, else
start with the empty dict (the `except Exception: pass` branch). -/
def init (V : Type) (persisted : Option (String → Option V)) : StorageImpl V :=
  match persisted with
  | some d => ⟨d⟩
  | none => ⟨fun _ => none⟩

/-- `StorageImpl._load`: `Just(data[key])` when the key is present,
`Nothing()` otherwise — exactly the partial-map lookup. -/
def load {V : Type} (s : StorageImpl V) (key : String) : Option V :=
  s.data key

/-- `StorageImpl._store`: `self.__data[key] = value` (the mirrored file
rewrite carries the same table, so the dict is the authoritative state). -/
def store {V : Type} (s : StorageImpl V) (key : String) (value : V) : StorageImpl V :=
  ⟨fun k => if k = key then some value else s.data k⟩

/-- `StorageImpl._delete`: `self.__data.pop(key, None)`. -/
def delete {V : Type} (s : StorageImpl V) (key : String) : StorageImpl V :=
  ⟨fun k => if k = key then none else s.data k⟩

end StorageImpl

/-! ## Trust Policy (`XEP_0384Impl._prompt_manual_trust`, src/xarebot.py lines 121-141)

For each device in the batch the Python code loops `while True` on
`input(...)`; an answer in `{"yes", "no"}` leads to one awaited
`session_manager.set_trust(bare_jid, identity_key, TRUSTED/DISTRUSTED)`
followed by `break`, any other answer prints a reminder and re-prompts.
We embed the console as a finite list of input lines consumed in order,
and record each `set_trust` invocation as a `TrustCall` in invocation
order.  If the input list runs out before a device gets a valid answer
the run blocks forever, modelled as `none`. -/

inductive TrustLevel where
  | undecided
  | trusted
  | distrusted
deriving DecidableEq, Repr

structure DeviceInformation where
  bare_jid : String
  identity_key : Nat
deriving DecidableEq, Repr

/-- One recorded `session_manager.set_trust` invocation. -/
structure TrustCall where
  bare_jid : String
  identity_key : Nat
  level : TrustLevel
deriving DecidableEq, Repr

/-- The inner `while True` loop: consume console lines until one is exactly
`"yes"` or `"no"`; return that answer and the unconsumed lines, or `none`
if the console is exhausted. -/
def promptLoop : List String → Option (String × List String)
  | [] => none
  | answer :: rest =>
    if answer = "yes" ∨ answer = "no" then some (answer, rest)
    else promptLoop rest

/-- `_prompt_manual_trust`: for each device in order, run `promptLoop`,
issue the corresponding `set_trust` call (Trusted on `"yes"`, Distrusted on
`"no"`), then move to the next device.  Returns the ordered trace of
`set_trust` calls and the unconsumed console lines. -/
def prompt_manual_trust :
    List DeviceInformation → List String → Option (List TrustCall × List String)
  | [], inputs => some ([], inputs)
  | device :: rest, inputs =>
    match promptLoop inputs with
    | none => none
    | some (answer, remaining) =>
      match prompt_manual_trust rest remaining with
      | none => none
      | some (calls, final) =>
        some (⟨device.bare_jid, device.identity_key,
               if answer = "yes" then TrustLevel.trusted else TrustLevel.distrusted⟩ :: calls,
              final)

/-- The subsequence of console lines that are valid answers. -/
def validAnswers (inputs : List String) : List String :=
  inputs.filter (fun a => a = "yes" ∨ a = "no")

/-! ## Offline Backlog Retriever (`XareBot.receive_offline_messages`,
src/xarebot.py lines 204-222)

The archive query yields forwarded stanzas in ascending timestamp order.
For each entry the code reads `forwarded["delay"]["stamp"]` (the
timestamp), `message["from"].bare` (the sender's bare address),
`message["body"]` and `message["oob"]["url"]` — the latter two are empty
strings when the stanza carries no such element, and Python truthiness
tests them against the empty string.  The guard is

    if message["from"].bare == OTHER_JID and message["body"]:
        if message["oob"]["url"]:
            await download_file(message["oob"]["url"])
        else:
            received_messages.append((timestamp, message["body"]))

We flatten the page structure (pages are iterated in order, so the entry
sequence is what matters), embed one entry as `ArchiveEntry`, and return
both the ordered trace of `download_file` invocations (by URL) and the
accumulated `received_messages` list. -/

structure ArchiveEntry where
  timestamp : Nat
  from_bare : String
  body : String
  oob_url : String
deriving DecidableEq, Repr

/-- The per-entry loop of `receive_offline_messages`: first component is
the ordered trace of `download_file` calls, second the returned
`received_messages` list of `(timestamp, body)` pairs. -/
def receive_offline_messages (other_jid : String) :
    List ArchiveEntry → List String × List (Nat × String)
  | [] => ([], [])
  | e :: rest =>
    let r := receive_offline_messages other_jid rest
    if e.from_bare = other_jid ∧ e.body ≠ "" then
      if e.oob_url ≠ "" then (e.oob_url :: r.1, r.2)
      else (r.1, (e.timestamp, e.body) :: r.2)
    else r

/-- An entry triggers a download: expected sender, non-empty body, and an
out-of-band URL present. -/
def isOobEntry (other_jid : String) (e : ArchiveEntry) : Bool :=
  decide (e.from_bare = other_jid) && decide (e.body ≠ "") && decide (e.oob_url ≠ "")

/-- An entry is appended to the text backlog: expected sender, non-empty
body, no out-of-band URL. -/
def isTextEntry (other_jid : String) (e : ArchiveEntry) : Bool :=
  decide (e.from_bare = other_jid) && decide (e.body ≠ "") && decide (e.oob_url = "")

/-! ## Encrypted Delivery (`XareBot.send_encrypted_message`,
src/xarebot.py lines 187-202)

`xep_0384.encrypt_message(unencrypted_message, to)` is an external
collaborator; it returns a dict mapping an encryption-scheme namespace to a
ciphertext stanza, plus a list of non-fatal per-device errors.  We embed
the collaborator as a function parameter returning an association list of
`(scheme namespace, ciphertext)` pairs and a list of errors (both types
abstract).  The code logs when the error list is non-empty, then for each
pair sets `message["eme"]["namespace"]` and `message["eme"]["name"]`
(looked up in `self["xep_0380"].mechanisms`) and calls `message.send()`.
We record the log flag and the ordered trace of sent stanzas. -/

structure OutgoingMessage where
  mto : String
  mbody : String
  mtype : Option String
  mhtml : Option String
  oob_url : Option String
deriving DecidableEq, Repr

/-- `self.make_message(...)`: builds a message with no out-of-band URL. -/
def make_message (mto mbody : String) (mtype : Option String) (mhtml : Option String) :
    OutgoingMessage :=
  ⟨mto, mbody, mtype, mhtml, none⟩

/-- One dispatched ciphertext stanza, stamped with the machine-readable
scheme namespace and the human-readable mechanism name. -/
structure EmeStanza (C : Type) where
  eme_ns : String
  eme_name : String
  ciphertext : C
deriving DecidableEq, Repr

structure SendResult (C : Type) where
  logged_encrypt_errors : Bool
  sent : List (EmeStanza C)
deriving DecidableEq, Repr

/-- `send_encrypted_message`: log if there were encryption errors, stamp
every successful ciphertext with its scheme namespace and mechanism name,
and send it. -/
def send_encrypted_message {C E : Type} (mechanisms : String → String)
    (encrypt_message : OutgoingMessage → String → List (String × C) × List E)
    (unencrypted_message : OutgoingMessage) (to_jid : String) : SendResult C :=
  let r := encrypt_message unencrypted_message to_jid
  { logged_encrypt_errors := decide (r.2.length > 0),
    sent := r.1.map (fun p => ⟨p.1, mechanisms p.1, p.2⟩) }

/-! ## File Transfer Orchestrator (`XareBot.upload_file`,
src/xarebot.py lines 224-241)

`self["xep_0454"].upload_file(path, timeout=10)` either returns a URL,
raises `IqTimeout` (translated by the code into
`TimeoutError("Could not send message in time")`), or raises some other
exception which propagates unchanged.  On success the code builds a
message whose plain body is the URL, whose XHTML body is a hyperlink
wrapping the URL, and whose `oob` URL field is the URL, then hands it to
`send_encrypted_message`. -/

/-- Outcome of the collaborator call `upload_file(path, timeout=10)`. -/
inductive UploadOutcome where
  | success (url : String)
  | iq_timeout
  | failure (e : String)
deriving DecidableEq, Repr

/-- Exception escaping `XareBot.upload_file`. -/
inductive UploadError where
  | timeout_error (msg : String)
  | other (e : String)
deriving DecidableEq, Repr

/-- The XHTML body built for a file message: a minimal hyperlink wrapping
the upload URL. -/
def file_html (url : String) : String :=
  "<body xmlns=\"http://www.w3.org/1999/xhtml\"><a href=\"" ++ url ++ "\">" ++ url
    ++ "</a></body>"

/-- `XareBot.upload_file`: translate `IqTimeout` into a distinct
`TimeoutError`, propagate other upload exceptions, and on success build the
file message and route it through `send_encrypted_message`.  Returns the
constructed message together with the send result. -/
def upload_file {C E : Type} (mechanisms : String → String)
    (encrypt_message : OutgoingMessage → String → List (String × C) × List E)
    (other_jid : String) (outcome : UploadOutcome) :
    Except UploadError (OutgoingMessage × SendResult C) :=
  match outcome with
  | UploadOutcome.iq_timeout =>
    Except.error (UploadError.timeout_error "Could not send message in time")
  | UploadOutcome.failure e => Except.error (UploadError.other e)
  | UploadOutcome.success url =>
    let unencrypted_msg :=
      { make_message other_jid url none (some (file_html url)) with oob_url := some url }
    Except.ok (unencrypted_msg,
      send_encrypted_message mechanisms encrypt_message unencrypted_msg other_jid)

/-! ## Bot Lifecycle (`XareBot.start`, src/xarebot.py lines 161-185)

`start` runs once per session: presence, roster fetch, backlog drain with
its text entries printed, optional encrypted text send, optional file
upload-and-send, then `await self.disconnect()`.  There is no try/finally:
an exception raised by `upload_file` (the `TimeoutError` translation of an
upload timeout, or any other upload exception) propagates out of `start`
before the `disconnect()` line is reached.  `send_encrypted_message`
never raises in this model: per-device encryption errors are returned by
the collaborator and only logged.  The trace records the observable steps
in order; the second component is the exception escaping `start`, if
any. -/

inductive Event where
  | presence_sent
  | roster_fetched
  | backlog_drained (printed : List (Nat × String))
  | text_sent
  | file_sent
  | disconnected
deriving DecidableEq, Repr

/-- `XareBot.start`, with the collaborators (mechanism table, encryption,
archive entries, upload outcome) passed explicitly.  `msg_to_send = none`
models a falsy `self.msg_to_send`, `file_outcome = none` a falsy
`self.file_to_send`; `some outcome` gives the behavior of the upload
collaborator when a file send was requested. -/
def start {C E : Type} (mechanisms : String → String)
    (encrypt_message : OutgoingMessage → String → List (String × C) × List E)
    (other_jid : String) (msg_to_send : Option String)
    (entries : List ArchiveEntry) (file_outcome : Option UploadOutcome) :
    List Event × Option UploadError :=
  let ev0 := [Event.presence_sent, Event.roster_fetched,
    Event.backlog_drained (receive_offline_messages other_jid entries).2]
  let ev1 := match msg_to_send with
    | some _ => ev0 ++ [Event.text_sent]
    | none => ev0
  match file_outcome with
  | none => (ev1 ++ [Event.disconnected], none)
  | some outcome =>
    match upload_file mechanisms encrypt_message other_jid outcome with
    | Except.error e => (ev1, some e)
    | Except.ok _ => (ev1 ++ [Event.file_sent, Event.disconnected], none)

/-! ### Concrete collaborator instances used by witnesses -/

/-- The `xep_0380` mechanism table restricted to the OMEMO namespace. -/
def exMechanisms : String → String :=
  fun ns => if ns = "eu.siacs.conversations.axolotl" then "OMEMO" else "Encrypted"

/-- A concrete encryption collaborator: two ciphertexts and one
non-fatal per-device error. -/
def exEncrypt : OutgoingMessage → String → List (String × Nat) × List String :=
  fun _ _ =>
    ([("eu.siacs.conversations.axolotl", 10), ("urn:xmpp:omemo:2", 20)],
     ["device 5: session broken"])

/-- A concrete outgoing text message. -/
def exMsg : OutgoingMessage := make_message "peer@s" "hello" (some "chat") none

end Xarebot

open Xarebot

/-- C7: Session-store round-trip: for every key `K` and value `V`, storing
`V` under `K` and then loading `K` returns `V`; and deleting `K` and then
loading `K` returns the absent result (`Nothing`). -/
theorem C7_storage_roundtrip {V : Type} (s : StorageImpl V) (key : String) (value : V) :
    (s.store key value).load key = some value ∧ (s.delete key).load key = none := by
  constructor <;> simp [StorageImpl.load, StorageImpl.store, StorageImpl.delete]

/-- C9: On first use with no persisted table, the store starts with an empty
table (construction succeeds, being total), and loading any key returns the
absent result until a store occurs. -/
theorem C9_init_empty {V : Type} (key : String) :
    (StorageImpl.init V none).load key = none := by
  simp [StorageImpl.load, StorageImpl.init]

theorem promptLoop_validAnswers (inputs : List String) :
    ∀ answer remaining, promptLoop inputs = some (answer, remaining) →
      validAnswers inputs = answer :: validAnswers remaining := by
  induction inputs with
  | nil => intro a r h; simp [promptLoop] at h
  | cons x xs ih =>
    intro a r h
    by_cases hx : x = "yes" ∨ x = "no"
    · simp only [promptLoop, if_pos hx] at h
      obtain ⟨rfl, rfl⟩ := Prod.mk.injEq .. ▸ Option.some.injEq .. ▸ h
      simp [validAnswers, hx]
    · simp only [promptLoop, if_neg hx] at h
      simpa [validAnswers, hx] using ih a r h

/-- C5: Whenever the manual trust resolution over a batch of devices
returns (i.e. every device eventually received a valid yes/no answer),
the trace of persisted `set_trust` calls contains exactly one call per
device, in batch order: the i-th call carries the i-th device's bare
address and identity key, with level Trusted when the i-th valid console
answer was `"yes"` and Distrusted when it was `"no"`; every call is in the
trace, hence issued before the resolving function returns. -/
theorem C5_manual_trust (devices : List DeviceInformation) (inputs : List String)
    (calls : List TrustCall) (final : List String)
    (h : prompt_manual_trust devices inputs = some (calls, final)) :
    calls.length = devices.length ∧
    calls = (devices.zip (validAnswers inputs)).map (fun p =>
      ⟨p.1.bare_jid, p.1.identity_key,
       if p.2 = "yes" then TrustLevel.trusted else TrustLevel.distrusted⟩) := by
  induction devices generalizing inputs calls final with
  | nil =>
    simp only [prompt_manual_trust, Option.some.injEq, Prod.mk.injEq] at h
    obtain ⟨rfl, rfl⟩ := h
    simp
  | cons d ds ih =>
    simp only [prompt_manual_trust] at h
    split at h
    · simp at h
    · rename_i answer remaining hp
      split at h
      · simp at h
      · rename_i calls' final' hrec
        simp only [Option.some.injEq, Prod.mk.injEq] at h
        obtain ⟨rfl, rfl⟩ := h
        obtain ⟨hlen, hcalls⟩ := ih remaining calls' final' hrec
        rw [promptLoop_validAnswers inputs answer remaining hp]
        refine ⟨by simpa using hlen, ?_⟩
        simp [List.zip_cons_cons, hcalls]

/-- C5 witness: a concrete two-device batch with console lines
`["y", "yes", "no"]` — the invalid `"y"` is skipped, the first device is
trusted, the second distrusted. -/
theorem C5_manual_trust_witness :
    prompt_manual_trust [⟨"alice@s", 1⟩, ⟨"bob@s", 2⟩] ["y", "yes", "no"]
      = some ([⟨"alice@s", 1, TrustLevel.trusted⟩, ⟨"bob@s", 2, TrustLevel.distrusted⟩], []) ∧
    ([⟨"alice@s", 1, TrustLevel.trusted⟩, ⟨"bob@s", 2, TrustLevel.distrusted⟩] : List TrustCall).length
        = ([⟨"alice@s", 1⟩, ⟨"bob@s", 2⟩] : List DeviceInformation).length ∧
    ([⟨"alice@s", 1, TrustLevel.trusted⟩, ⟨"bob@s", 2, TrustLevel.distrusted⟩] : List TrustCall)
      = (([⟨"alice@s", 1⟩, ⟨"bob@s", 2⟩] : List DeviceInformation).zip
          (validAnswers ["y", "yes", "no"])).map (fun p =>
            ⟨p.1.bare_jid, p.1.identity_key,
             if p.2 = "yes" then TrustLevel.trusted else TrustLevel.distrusted⟩) :=
  ⟨by decide,
   C5_manual_trust [⟨"alice@s", 1⟩, ⟨"bob@s", 2⟩] ["y", "yes", "no"]
     [⟨"alice@s", 1, TrustLevel.trusted⟩, ⟨"bob@s", 2, TrustLevel.distrusted⟩] [] (by decide)⟩

/-- C10: The prompt accepts only the exact lowercase strings `"yes"` and
`"no"`: any other console line is consumed without issuing any `set_trust`
call and the prompt is re-issued, i.e. the resolution behaves exactly as if
the invalid line were absent. -/
theorem C10_invalid_input (a : String) (h1 : a ≠ "yes") (h2 : a ≠ "no")
    (d : DeviceInformation) (ds : List DeviceInformation) (rest : List String) :
    prompt_manual_trust (d :: ds) (a :: rest) = prompt_manual_trust (d :: ds) rest := by
  have hx : ¬(a = "yes" ∨ a = "no") := by
    rintro (h | h)
    · exact h1 h
    · exact h2 h
  simp only [prompt_manual_trust, promptLoop, if_neg hx]

/-- C10 witness: the capitalised `"Yes"` is rejected and re-prompted. -/
theorem C10_invalid_input_witness :
    ("Yes" : String) ≠ "yes" ∧ ("Yes" : String) ≠ "no" ∧
    prompt_manual_trust [⟨"alice@s", 1⟩] ("Yes" :: ["no"])
      = prompt_manual_trust [⟨"alice@s", 1⟩] ["no"] :=
  ⟨by decide, by decide,
   C10_invalid_input "Yes" (by decide) (by decide) ⟨"alice@s", 1⟩ [] ["no"]⟩

/-- Characterization of the backlog loop: the download trace is one URL per
entry with expected sender, non-empty body and an OOB URL; the text result
is one `(timestamp, body)` pair per entry with expected sender, non-empty
body and no OOB URL. -/
theorem receive_offline_messages_eq (other_jid : String) (entries : List ArchiveEntry) :
    receive_offline_messages other_jid entries =
      ((entries.filter (isOobEntry other_jid)).map (fun e => e.oob_url),
       (entries.filter (isTextEntry other_jid)).map (fun e => (e.timestamp, e.body))) := by
  induction entries with
  | nil => rfl
  | cons e rest ih =>
    by_cases ha : e.from_bare = other_jid
    · by_cases hb : e.body = ""
      · simp [receive_offline_messages, ih, List.filter_cons, isOobEntry, isTextEntry, ha, hb]
      · by_cases hc : e.oob_url = ""
        · simp [receive_offline_messages, ih, List.filter_cons, isOobEntry, isTextEntry,
            ha, hb, hc]
        · simp [receive_offline_messages, ih, List.filter_cons, isOobEntry, isTextEntry,
            ha, hb, hc]
    · simp [receive_offline_messages, ih, List.filter_cons, isOobEntry, isTextEntry, ha]

/-- C2 counterexample: an entry from the expected sender with an
out-of-band URL but an empty textual body.  The claim says such an entry
triggers exactly one download attempt and is not discarded; the code tests
the body first, so the entry is discarded and no download is attempted. -/
theorem C2_counterexample :
    (ArchiveEntry.mk 0 "peer@s" "" "http://up.example/f.bin").from_bare = "peer@s" ∧
    (ArchiveEntry.mk 0 "peer@s" "" "http://up.example/f.bin").oob_url ≠ "" ∧
    receive_offline_messages "peer@s" [ArchiveEntry.mk 0 "peer@s" "" "http://up.example/f.bin"]
      = ([], []) := by
  refine ⟨rfl, by decide, rfl⟩

/-- C2 amended: for entries from the expected sender, an entry is discarded
exactly when its textual body is empty — an out-of-band reference alone
does not preserve it; among entries with a non-empty body, one with an
out-of-band URL triggers exactly one download attempt (one trace element
per such entry, in order) and is not appended to the text-body result,
while one without is appended. -/
theorem C2_amended_oob_handling (other_jid : String) (entries : List ArchiveEntry) :
    (receive_offline_messages other_jid entries).1
      = (entries.filter (isOobEntry other_jid)).map (fun e => e.oob_url) ∧
    (receive_offline_messages other_jid entries).2
      = (entries.filter (isTextEntry other_jid)).map (fun e => (e.timestamp, e.body)) := by
  rw [receive_offline_messages_eq]
  exact ⟨rfl, rfl⟩

/-- C3: on an entry sequence in ascending timestamp order, the text backlog
result preserves ascending timestamp order, and every element of it is the
`(timestamp, body)` pair of some kept entry (expected sender, non-empty
body, no out-of-band URL). -/
theorem C3_backlog_filter (other_jid : String) (entries : List ArchiveEntry)
    (hsorted : entries.Pairwise (fun a b => a.timestamp ≤ b.timestamp)) :
    (receive_offline_messages other_jid entries).2.Pairwise (fun p q => p.1 ≤ q.1) ∧
    ∀ p ∈ (receive_offline_messages other_jid entries).2,
      ∃ e ∈ entries, e.from_bare = other_jid ∧ e.body ≠ "" ∧ e.oob_url = "" ∧
        p = (e.timestamp, e.body) := by
  rw [receive_offline_messages_eq]
  constructor
  · rw [List.pairwise_map]
    exact hsorted.sublist (List.filter_sublist entries)
  · intro p hp
    rw [List.mem_map] at hp
    obtain ⟨e, he, rfl⟩ := hp
    rw [List.mem_filter] at he
    obtain ⟨hmem, hpred⟩ := he
    simp only [isTextEntry, Bool.and_eq_true, decide_eq_true_eq] at hpred
    exact ⟨e, hmem, hpred.1.1, hpred.1.2, hpred.2, rfl⟩

/-- C3 witness: a concrete ascending archive interleaving the expected
sender `a@s`, another sender `b@s`, a bodyless hint and an OOB entry. -/
theorem C3_backlog_filter_witness :
    ([ArchiveEntry.mk 1 "a@s" "hi" "", ArchiveEntry.mk 2 "b@s" "yo" "",
      ArchiveEntry.mk 3 "a@s" "" "", ArchiveEntry.mk 4 "a@s" "f" "http://u/f",
      ArchiveEntry.mk 5 "a@s" "bye" ""].Pairwise (fun a b => a.timestamp ≤ b.timestamp)) ∧
    ((receive_offline_messages "a@s"
        [ArchiveEntry.mk 1 "a@s" "hi" "", ArchiveEntry.mk 2 "b@s" "yo" "",
         ArchiveEntry.mk 3 "a@s" "" "", ArchiveEntry.mk 4 "a@s" "f" "http://u/f",
         ArchiveEntry.mk 5 "a@s" "bye" ""]).2.Pairwise (fun p q => p.1 ≤ q.1) ∧
     ∀ p ∈ (receive_offline_messages "a@s"
        [ArchiveEntry.mk 1 "a@s" "hi" "", ArchiveEntry.mk 2 "b@s" "yo" "",
         ArchiveEntry.mk 3 "a@s" "" "", ArchiveEntry.mk 4 "a@s" "f" "http://u/f",
         ArchiveEntry.mk 5 "a@s" "bye" ""]).2,
       ∃ e ∈ [ArchiveEntry.mk 1 "a@s" "hi" "", ArchiveEntry.mk 2 "b@s" "yo" "",
              ArchiveEntry.mk 3 "a@s" "" "", ArchiveEntry.mk 4 "a@s" "f" "http://u/f",
              ArchiveEntry.mk 5 "a@s" "bye" ""],
         e.from_bare = "a@s" ∧ e.body ≠ "" ∧ e.oob_url = "" ∧ p = (e.timestamp, e.body)) :=
  ⟨by decide,
   C3_backlog_filter "a@s"
     [ArchiveEntry.mk 1 "a@s" "hi" "", ArchiveEntry.mk 2 "b@s" "yo" "",
      ArchiveEntry.mk 3 "a@s" "" "", ArchiveEntry.mk 4 "a@s" "f" "http://u/f",
      ArchiveEntry.mk 5 "a@s" "bye" ""] (by decide)⟩

/-- C4: Encrypted Delivery is best effort across devices: when the
encryption collaborator returns a non-empty per-device error list, the
errors are logged (the log flag is set) and every successful
`(scheme, ciphertext)` pair is still dispatched, stamped with the scheme
namespace and the human-readable mechanism name. -/
theorem C4_best_effort {C E : Type} (mechanisms : String → String)
    (encrypt_message : OutgoingMessage → String → List (String × C) × List E)
    (msg : OutgoingMessage) (to_jid : String)
    (herr : (encrypt_message msg to_jid).2 ≠ []) :
    (send_encrypted_message mechanisms encrypt_message msg to_jid).logged_encrypt_errors
        = true ∧
    (send_encrypted_message mechanisms encrypt_message msg to_jid).sent.length
      = (encrypt_message msg to_jid).1.length ∧
    ∀ i : Nat,
      (send_encrypted_message mechanisms encrypt_message msg to_jid).sent[i]?
        = ((encrypt_message msg to_jid).1[i]?).map (fun p => ⟨p.1, mechanisms p.1, p.2⟩) := by
  have hpos : 0 < (encrypt_message msg to_jid).2.length := List.length_pos.mpr herr
  refine ⟨?_, ?_, ?_⟩
  · simp [send_encrypted_message, hpos]
  · simp [send_encrypted_message]
  · intro i
    simp [send_encrypted_message, List.getElem?_map]

/-- C4 witness: two ciphertexts and one broken device — both stanzas are
still dispatched with their labels and the error is logged. -/
theorem C4_best_effort_witness :
    (exEncrypt exMsg "peer@s").2 ≠ [] ∧
    ((send_encrypted_message exMechanisms exEncrypt exMsg "peer@s").logged_encrypt_errors
        = true ∧
     (send_encrypted_message exMechanisms exEncrypt exMsg "peer@s").sent.length
       = (exEncrypt exMsg "peer@s").1.length ∧
     ∀ i : Nat,
       (send_encrypted_message exMechanisms exEncrypt exMsg "peer@s").sent[i]?
         = ((exEncrypt exMsg "peer@s").1[i]?).map (fun p => ⟨p.1, exMechanisms p.1, p.2⟩)) :=
  ⟨by decide, C4_best_effort exMechanisms exEncrypt exMsg "peer@s" (by decide)⟩

/-- C6: an upload that does not complete within the timeout (the
collaborator raises `IqTimeout`) makes `upload_file` raise a
`TimeoutError`, which is distinguishable from every other upload failure,
and no outgoing message is constructed or sent. -/
theorem C6_upload_timeout {C E : Type} (mechanisms : String → String)
    (encrypt_message : OutgoingMessage → String → List (String × C) × List E)
    (other_jid : String) :
    upload_file mechanisms encrypt_message other_jid UploadOutcome.iq_timeout
      = Except.error (UploadError.timeout_error "Could not send message in time") ∧
    (∀ e, UploadError.timeout_error "Could not send message in time"
        ≠ UploadError.other e) ∧
    (∀ msg r, upload_file mechanisms encrypt_message other_jid UploadOutcome.iq_timeout
        ≠ Except.ok (msg, r)) :=
  ⟨rfl, fun _e h => UploadError.noConfusion h, fun _msg _r h => Except.noConfusion h⟩

/-- C8: a successful upload of URL `u` yields an outgoing message whose
plain body is exactly `u`, whose XHTML body is the hyperlink wrapping of
`u`, whose out-of-band URL is `u`, addressed to the peer, and that message
is passed to the same `send_encrypted_message` operation used for text
messages. -/
theorem C8_upload_success {C E : Type} (mechanisms : String → String)
    (encrypt_message : OutgoingMessage → String → List (String × C) × List E)
    (other_jid url : String) :
    ∃ r : OutgoingMessage × SendResult C,
      upload_file mechanisms encrypt_message other_jid (UploadOutcome.success url)
        = Except.ok r ∧
      r.1.mto = other_jid ∧
      r.1.mbody = url ∧
      r.1.mhtml = some (file_html url) ∧
      r.1.oob_url = some url ∧
      r.2 = send_encrypted_message mechanisms encrypt_message r.1 other_jid :=
  ⟨_, rfl, rfl, rfl, rfl, rfl, rfl⟩

/-- C1 counterexample: a run that requests a file send whose upload times
out.  The claim says the run still ends Disconnected; in the code the
`TimeoutError` raised by `upload_file` propagates out of `start` before
`self.disconnect()` is reached, so the disconnect step never happens. -/
theorem C1_counterexample :
    Event.disconnected
        ∉ (start exMechanisms exEncrypt "peer@s" none [] (some UploadOutcome.iq_timeout)).1 ∧
    (start exMechanisms exEncrypt "peer@s" none [] (some UploadOutcome.iq_timeout)).2
      = some (UploadError.timeout_error "Could not send message in time") := by
  decide

/-- C1 amended: the run ends with the disconnect step exactly when no
exception escapes `start`: with no file requested, or with a successful
upload, the last step of the trace is the disconnect (per-device
encryption errors never raise, so a text send never prevents it); when
the file upload raises (timeout or any other upload failure), the
exception propagates and the disconnect step is not reached. -/
theorem C1_amended_disconnect {C E : Type} (mechanisms : String → String)
    (encrypt_message : OutgoingMessage → String → List (String × C) × List E)
    (other_jid : String) (msg_to_send : Option String)
    (entries : List ArchiveEntry) (file_outcome : Option UploadOutcome) :
    (Event.disconnected
        ∈ (start mechanisms encrypt_message other_jid msg_to_send entries file_outcome).1
      ↔ (start mechanisms encrypt_message other_jid msg_to_send entries file_outcome).2
          = none) ∧
    ((start mechanisms encrypt_message other_jid msg_to_send entries file_outcome).2 = none →
      (start mechanisms encrypt_message other_jid msg_to_send entries file_outcome).1.getLast?
        = some Event.disconnected) := by
  rcases file_outcome with _ | outcome
  · rcases msg_to_send with _ | m <;>
      simp [start, List.getLast?]
  · rcases outcome with url | _ | e <;> rcases msg_to_send with _ | m <;>
      simp [start, upload_file, List.getLast?]

/-- C1 amended witness: a run with no message and no file ends with the
disconnect step. -/
theorem C1_amended_disconnect_witness :
    (Event.disconnected ∈ (start exMechanisms exEncrypt "peer@s" none [] none).1
      ↔ (start exMechanisms exEncrypt "peer@s" none [] none).2 = none) ∧
    ((start exMechanisms exEncrypt "peer@s" none [] none).2 = none →
      (start exMechanisms exEncrypt "peer@s" none [] none).1.getLast?
        = some Event.disconnected) :=
  C1_amended_disconnect exMechanisms exEncrypt "peer@s" none [] none
